import Mathlib

/-!
Shallow embedding of the golden-image uploader (`uploader.go`, package
`goldenimage`) of the udn-cdi-local-upload-workaround repository, together
with the fragments of its vendored dependency `k8s.io/apimachinery`
(label-selector construction and matching) that the uploader calls.

External effects (Kubernetes API calls, file I/O, the remote-exec stream)
are modelled by passing their outcomes in explicitly as values; the pure
control flow and data manipulation of the Go code is translated directly.
Go's `map[string]interface` values coming from unstructured objects are
modelled as association lists of a JSON-like value type; Go type
assertions `v.(T)` become partial projections returning `Option`.
-/

namespace GoldenImage

/-- Outcome classification of a Kubernetes API error, as far as the
uploader inspects it (it only ever calls `k8serrors.IsNotFound` and
`k8serrors.IsAlreadyExists`). -/
inductive K8sErr where
  | notFound
  | alreadyExists
  | other (s : String)
deriving DecidableEq

/-- Embeds `k8serrors.IsNotFound` restricted to the error classification
above. -/
def K8sErr.isNotFound : K8sErr → Bool
  | .notFound => true
  | _ => false

/-- JSON-like dynamic value, modelling Go `interface` values held in
`unstructured` objects (`map[string]interface` becomes an association
list, `[]interface` a list). -/
inductive UVal where
  | str (s : String)
  | num (n : Int)
  | boolean (b : Bool)
  | null
  | arr (items : List UVal)
  | obj (fields : List (String × UVal))

/-- Go type assertion `v.(string)`. -/
def UVal.asStr : UVal → Option String
  | .str s => some s
  | _ => none

/-- Go type assertion `v.(map[string]interface)`. -/
def UVal.asObj : UVal → Option (List (String × UVal))
  | .obj fields => some fields
  | _ => none

/-- Go type assertion `v.([]interface)`. -/
def UVal.asArr : UVal → Option (List UVal)
  | .arr items => some items
  | _ => none

/-- Go map indexing `m[k]` followed by an object assertion: `m[k]` on a
missing key yields a nil interface, whose assertion fails, so both cases
collapse to `none`. -/
def getObj (fields : List (String × UVal)) (k : String) : Option (List (String × UVal)) :=
  (List.lookup k fields).bind UVal.asObj

/-- Go map indexing `m[k]` followed by a string assertion. -/
def getStr (fields : List (String × UVal)) (k : String) : Option String :=
  (List.lookup k fields).bind UVal.asStr

/-- Go map indexing `m[k]` followed by a slice assertion. -/
def getArr (fields : List (String × UVal)) (k : String) : Option (List UVal) :=
  (List.lookup k fields).bind UVal.asArr

/-- Errors produced by the uploader: a raw Kubernetes API error, a plain
message (file I/O, executor construction, and similar), a wrapped error
(Go `fmt.Errorf` with a context prefix and `%w`), or the DataVolume
failure error carrying the raw condition list (`fmt.Errorf` over the
conditions slice). -/
inductive Err where
  | k8s (e : K8sErr)
  | msg (s : String)
  | wrap (ctx : String) (e : Err)
  | dvFailed (conditions : List UVal)

/- ---------------------------------------------------------------------
Embedding of the label-selector machinery of `k8s.io/apimachinery` used
by `selectorMatchesNamespace`:
  - `metav1.LabelSelector` / `metav1.LabelSelectorRequirement`
  - `metav1.LabelSelectorAsSelector` (apis/meta/v1/helpers.go)
  - `labels.NewRequirement` and its validation (pkg/labels/selector.go,
    pkg/util/validation/validation.go)
  - `Requirement.Matches` / `Selector.Matches`.
--------------------------------------------------------------------- -/

/-- Embeds `metav1.LabelSelectorRequirement`: a key, an operator string
(`metav1.LabelSelectorOperator`), and a value list. -/
structure LabelSelectorRequirement where
  key : String
  operator : String
  values : List String
deriving DecidableEq

/-- Embeds `metav1.LabelSelector`. Go `nil` maps/slices and empty ones
behave identically here, so both are the empty list. -/
structure LabelSelector where
  matchLabels : List (String × String)
  matchExpressions : List LabelSelectorRequirement

/-- The `selection.Operator` values reachable from
`metav1.LabelSelectorAsSelector` (equality comes from `matchLabels`). -/
inductive SelOp where
  | opIn
  | opNotIn
  | opEquals
  | opExists
  | opDoesNotExist
deriving DecidableEq

/-- Embeds the character class `[A-Za-z0-9]` of the apimachinery
validation regexes. -/
def isAlnumChar (c : Char) : Bool :=
  (c ≥ 'a' && c ≤ 'z') || (c ≥ 'A' && c ≤ 'Z') || (c ≥ '0' && c ≤ '9')

/-- Embeds the character class `[-A-Za-z0-9_.]`. -/
def isQualifiedNameMidChar (c : Char) : Bool :=
  isAlnumChar c || c = '-' || c = '_' || c = '.'

/-- Splitting a character list on a separator, the semantics of Go
`strings.Split` restricted to a one-character separator (the empty
input yields one empty part, as in Go). -/
def splitChar (sep : Char) : List Char → List (List Char)
  | [] => [[]]
  | c :: rest =>
    match splitChar sep rest with
    | [] => if c = sep then [[], []] else [[c]]
    | h :: t => if c = sep then [] :: h :: t else (c :: h) :: t

/-- Embeds the regex `([A-Za-z0-9][-A-Za-z0-9_.]*)?[A-Za-z0-9]` together
with the length bound 63 of `validation.IsQualifiedName` applied to the
name part: nonempty, at most 63 characters (the keys in play are ASCII,
so character and byte counts agree), first and last character
alphanumeric, middle characters from the extended class. -/
def isQualifiedNamePart (cs : List Char) : Bool :=
  match cs with
  | [] => false
  | c :: rest =>
    cs.length ≤ 63 && isAlnumChar c && isAlnumChar (cs.getLastD c)
      && (c :: rest).all isQualifiedNameMidChar

/-- Embeds the character class `[a-z0-9]` of the DNS-1123 regexes. -/
def isLowerAlnumChar (c : Char) : Bool :=
  (c ≥ 'a' && c ≤ 'z') || (c ≥ '0' && c ≤ '9')

/-- Embeds one dot-separated label of `validation.IsDNS1123Subdomain`:
regex `[a-z0-9]([-a-z0-9]*[a-z0-9])?` with length bound 63. -/
def isDNS1123Label (cs : List Char) : Bool :=
  match cs with
  | [] => false
  | c :: rest =>
    cs.length ≤ 63 && isLowerAlnumChar c && isLowerAlnumChar (cs.getLastD c)
      && (c :: rest).all (fun d => isLowerAlnumChar d || d = '-')

/-- Embeds `validation.IsDNS1123Subdomain`: length at most 253 and every
dot-separated part a DNS-1123 label. -/
def isDNS1123Subdomain (cs : List Char) : Bool :=
  cs.length ≤ 253 && (splitChar '.' cs).all isDNS1123Label

/-- Embeds `validateLabelKey` / `validation.IsQualifiedName` from
apimachinery: an optional DNS-1123 subdomain prefix separated by a single
slash, then a qualified-name part. -/
def validateLabelKey (key : String) : Bool :=
  match splitChar '/' key.toList with
  | [name] => isQualifiedNamePart name
  | [pre, name] => pre.length > 0 && isDNS1123Subdomain pre && isQualifiedNamePart name
  | _ => false

/-- Embeds `validation.IsValidLabelValue`: length at most 63 and the
regex `(([A-Za-z0-9][-A-Za-z0-9_.]*)?[A-Za-z0-9])?` (empty allowed). -/
def isValidLabelValue (s : String) : Bool :=
  let cs := s.toList
  cs.length ≤ 63 &&
    (match cs with
     | [] => true
     | c :: rest =>
       isAlnumChar c && isAlnumChar (cs.getLastD c)
         && (c :: rest).all isQualifiedNameMidChar)

/-- A constructed `labels.Requirement`. -/
structure Requirement where
  key : String
  op : SelOp
  values : List String
deriving DecidableEq

/-- Embeds `labels.NewRequirement` from apimachinery
(pkg/labels/selector.go): validates the key as a label key, validates
the value-list arity for the operator (`In`/`NotIn` need a nonempty
list, `Equals` exactly one value, `Exists`/`DoesNotExist` an empty
list), and validates every value as a label value; any validation
failure makes the call return an error, modelled as `none`. -/
def newRequirement (key : String) (op : SelOp) (vals : List String) : Option Requirement :=
  let arityOk :=
    match op with
    | .opIn | .opNotIn => !vals.isEmpty
    | .opEquals => vals.length == 1
    | .opExists | .opDoesNotExist => vals.isEmpty
  if validateLabelKey key && arityOk && vals.all isValidLabelValue then
    some { key := key, op := op, values := vals }
  else
    none

/-- Embeds the `metav1.LabelSelectorOperator` to `selection.Operator`
switch inside `metav1.LabelSelectorAsSelector`; an unrecognized operator
string is an error (`none`). -/
def parseSelOp (s : String) : Option SelOp :=
  match s with
  | "In" => some .opIn
  | "NotIn" => some .opNotIn
  | "Exists" => some .opExists
  | "DoesNotExist" => some .opDoesNotExist
  | _ => none

/-- Embeds the `matchLabels` loop of `metav1.LabelSelectorAsSelector`:
each pair becomes an `Equals` requirement via `labels.NewRequirement`,
and the first failure aborts the conversion with an error (`none`). -/
def convertMatchLabels (kvs : List (String × String)) : Option (List Requirement) :=
  match kvs with
  | [] => some []
  | kv :: rest =>
    match newRequirement kv.1 .opEquals [kv.2] with
    | none => none
    | some r =>
      match convertMatchLabels rest with
      | none => none
      | some rs => some (r :: rs)

/-- Embeds the `matchExpressions` loop of
`metav1.LabelSelectorAsSelector`: each entry goes through the operator
switch and `labels.NewRequirement`; the first failure aborts with an
error (`none`). -/
def convertMatchExpressions (es : List LabelSelectorRequirement) : Option (List Requirement) :=
  match es with
  | [] => some []
  | e :: rest =>
    match parseSelOp e.operator with
    | none => none
    | some op =>
      match newRequirement e.key op e.values with
      | none => none
      | some r =>
        match convertMatchExpressions rest with
        | none => none
        | some rs => some (r :: rs)

/-- Embeds `metav1.LabelSelectorAsSelector` (apis/meta/v1/helpers.go)
for a non-nil selector: an empty selector becomes `labels.Everything()`
(the empty requirement list, which matches everything); otherwise the
`matchLabels` pairs and `matchExpressions` entries are converted in
order and any conversion error is returned (`none`). -/
def labelSelectorAsSelector (ps : LabelSelector) : Option (List Requirement) :=
  if ps.matchLabels.length + ps.matchExpressions.length == 0 then
    some []
  else
    match convertMatchLabels ps.matchLabels with
    | none => none
    | some rs1 =>
      match convertMatchExpressions ps.matchExpressions with
      | none => none
      | some rs2 => some (rs1 ++ rs2)

/-- Embeds `Requirement.Matches` from apimachinery for the reachable
operators: `In`/`Equals` need the key present with a listed value,
`NotIn` is satisfied by absence or an unlisted value, `Exists` tests
presence only and `DoesNotExist` absence only (the stored value list is
not consulted by `Matches` for these two). -/
def requirementMatches (r : Requirement) (ls : List (String × String)) : Bool :=
  match r.op with
  | .opIn | .opEquals =>
    match List.lookup r.key ls with
    | some v => r.values.contains v
    | none => false
  | .opNotIn =>
    match List.lookup r.key ls with
    | some v => !r.values.contains v
    | none => true
  | .opExists => (List.lookup r.key ls).isSome
  | .opDoesNotExist => (List.lookup r.key ls).isNone

/-- Embeds `internalSelector.Matches`: conjunction over all
requirements. -/
def selectorMatchesLabels (rs : List Requirement) (ls : List (String × String)) : Bool :=
  rs.all (fun r => requirementMatches r ls)

/- ---------------------------------------------------------------------
Embedding of the uploader functions themselves (uploader.go).
--------------------------------------------------------------------- -/

/-- Embeds the `matchLabels` parsing loop of `selectorMatchesNamespace`
(uploader.go lines 231-238): keep the pairs whose value is a string. -/
def parseMatchLabels (v : Option UVal) : List (String × String) :=
  match v.bind UVal.asObj with
  | some fields => fields.filterMap (fun kv =>
      match kv.2 with
      | .str s => some (kv.1, s)
      | _ => none)
  | none => []

/-- Embeds the per-expression parsing of `selectorMatchesNamespace`
(uploader.go lines 242-262): an entry that is not an object is skipped;
missing or non-string `key`/`operator` fields default to the empty
string; only string entries of `values` are kept. -/
def parseRequirementEntry (v : UVal) : Option LabelSelectorRequirement :=
  match v.asObj with
  | none => none
  | some m =>
    some { key := (getStr m "key").getD ""
           operator := (getStr m "operator").getD ""
           values :=
             match getArr m "values" with
             | some items => items.filterMap UVal.asStr
             | none => [] }

/-- Embeds the `matchExpressions` parsing loop of
`selectorMatchesNamespace` (uploader.go lines 241-263). -/
def parseMatchExpressions (v : Option UVal) : List LabelSelectorRequirement :=
  match v.bind UVal.asArr with
  | some items => items.filterMap parseRequirementEntry
  | none => []

/-- Embeds the construction of the `metav1.LabelSelector` inside
`selectorMatchesNamespace` from the `namespaceSelector` object. -/
def parseNamespaceSelector (nsSel : List (String × UVal)) : LabelSelector :=
  { matchLabels := parseMatchLabels (List.lookup "matchLabels" nsSel)
    matchExpressions := parseMatchExpressions (List.lookup "matchExpressions" nsSel) }

/-- Embeds `selectorMatchesNamespace` (uploader.go lines 222-272): a
spec without a `namespaceSelector` object does not match; the selector
is parsed, converted by `metav1.LabelSelectorAsSelector` (an error there
yields `false`), and matched against the namespace labels. -/
def selectorMatchesNamespace (spec : List (String × UVal))
    (nsLabels : List (String × String)) : Bool :=
  match getObj spec "namespaceSelector" with
  | none => false
  | some nsSel =>
    match labelSelectorAsSelector (parseNamespaceSelector nsSel) with
    | none => false
    | some rs => selectorMatchesLabels rs nsLabels

/-- Embeds the per-layer check of `hasPrimaryRole`: the field `layer`
must be an object whose `role` field is the string "Primary". -/
def layerHasPrimary (fields : List (String × UVal)) (layer : String) : Bool :=
  match getObj fields layer with
  | some l =>
    match getStr l "role" with
    | some role => role == "Primary"
    | none => false
  | none => false

/-- Embeds `hasPrimaryRole` (uploader.go lines 191-219). The Go function
is a sequence of early-return `if` blocks over pure tests, equivalent to
this disjunction: `network.layer2.role` or `network.layer3.role` (CUDN
shape), then `layer2.role` or `layer3.role` directly (UDN shape). -/
def hasPrimaryRole (spec : List (String × UVal)) : Bool :=
  (match getObj spec "network" with
   | some network => layerHasPrimary network "layer2" || layerHasPrimary network "layer3"
   | none => false)
  || layerHasPrimary spec "layer2"
  || layerHasPrimary spec "layer3"

/-- The label key tested by `namespaceHasPrimaryUDN`
(uploader.go line 131). -/
def udnLabelKey : String := "k8s.ovn.org/primary-user-defined-network"

/-- Embeds the CUDN scanning loop of `namespaceHasPrimaryUDN`
(uploader.go lines 145-160): first item whose `spec` is an object, has
Primary role, and whose selector matches the namespace labels wins. -/
def scanCUDNs (items : List (List (String × UVal)))
    (nsLabels : List (String × String)) : Bool :=
  match items with
  | [] => false
  | item :: rest =>
    match getObj item "spec" with
    | none => scanCUDNs rest nsLabels
    | some spec =>
      if hasPrimaryRole spec && selectorMatchesNamespace spec nsLabels then
        true
      else
        scanCUDNs rest nsLabels

/-- Embeds the UDN scanning loop of `checkNamespaceScopedUDN`
(uploader.go lines 176-185). -/
def scanUDNs (items : List (List (String × UVal))) : Bool :=
  match items with
  | [] => false
  | item :: rest =>
    match getObj item "spec" with
    | none => scanUDNs rest
    | some spec =>
      if hasPrimaryRole spec then true else scanUDNs rest

/-- Embeds `checkNamespaceScopedUDN` (uploader.go lines 167-188): a
NotFound listing error means the CRD is absent and yields `false`; any
other listing error is fatal; otherwise any item with Primary role
yields `true`. The Go function also receives the namespace labels but
never reads them; the parameter is kept for fidelity. -/
def checkNamespaceScopedUDN (_nsLabels : List (String × String))
    (udnList : Except K8sErr (List (List (String × UVal)))) : Except Err Bool :=
  match udnList with
  | .error e =>
    if e.isNotFound then .ok false
    else .error (.wrap "listing UDNs" (.k8s e))
  | .ok items => .ok (scanUDNs items)

/-- Environment of external outcomes consumed by
`namespaceHasPrimaryUDN`: the namespace GET (yielding its label map on
success), the cluster-scoped CUDN LIST, and the namespace-scoped UDN
LIST (each item modelled by its `Object` field map). -/
structure DetectEnv where
  nsGet : Except K8sErr (List (String × String))
  cudnList : Except K8sErr (List (List (String × UVal)))
  udnList : Except K8sErr (List (List (String × UVal)))

/-- Embeds `namespaceHasPrimaryUDN` (uploader.go lines 122-164): fetch
the namespace (an error is fatal); if the marker label is absent return
`false` immediately; list CUDNs (NotFound falls back to the
namespace-scoped check, other errors are fatal); scan them for a
Primary-role definition whose selector matches; otherwise check
namespace-scoped UDNs. -/
def namespaceHasPrimaryUDN (env : DetectEnv) : Except Err Bool :=
  match env.nsGet with
  | .error e => .error (.wrap "getting namespace" (.k8s e))
  | .ok nsLabels =>
    if (List.lookup udnLabelKey nsLabels).isNone then
      .ok false
    else
      match env.cudnList with
      | .error e =>
        if e.isNotFound then checkNamespaceScopedUDN nsLabels env.udnList
        else .error (.wrap "listing CUDNs" (.k8s e))
      | .ok items =>
        if scanCUDNs items nsLabels then .ok true
        else checkNamespaceScopedUDN nsLabels env.udnList

/- ---------------------------------------------------------------------
Embedding of `streamImageToPod` (uploader.go lines 397-475).
--------------------------------------------------------------------- -/

/-- Outcome of the tar-writer goroutine of `streamImageToPod`
(uploader.go lines 417-439): the header write can fail, the copy can
fail, or both succeed with a byte count; the goroutine sends the
corresponding wrapped error (or nil) on `errChan`. -/
inductive WriterOutcome where
  | headerFailed (e : Err)
  | copyFailed (e : Err)
  | completed (written : Nat)

/-- The value the tar-writer goroutine places on `errChan`. -/
def writerResult : WriterOutcome → Option Err
  | .headerFailed e => some (.wrap "writing tar header" e)
  | .copyFailed e => some (.wrap "copying file to tar" e)
  | .completed _ => none

/-- Environment of external outcomes consumed by `streamImageToPod`:
the local open and stat, the concurrently running tar writer, the SPDY
executor construction, and the remote exec stream. -/
structure StreamEnv where
  openErr : Option Err
  statErr : Option Err
  writerOutcome : WriterOutcome
  executorErr : Option Err
  streamErr : Option Err

/-- Embeds `streamImageToPod` (uploader.go lines 397-475): open and
stat the local file (each failure wrapped and returned), spawn the tar
writer, build the executor, run the exec stream; a stream error is
wrapped and returned without reading `errChan`; only after a successful
stream is the writer outcome received from `errChan` and surfaced. The
buffered channel makes the concurrent writer-reader pair equivalent to
this sequential reading. -/
def streamImageToPod (env : StreamEnv) : Option Err :=
  match env.openErr with
  | some e => some (.wrap "opening local file" e)
  | none =>
    match env.statErr with
    | some e => some (.wrap "stat local file" e)
    | none =>
      match env.executorErr with
      | some e => some (.wrap "creating executor" e)
      | none =>
        match env.streamErr with
        | some e => some (.wrap "streaming to pod" e)
        | none => writerResult env.writerOutcome

/- ---------------------------------------------------------------------
Embedding of `waitForDataVolume` (uploader.go lines 529-561).
--------------------------------------------------------------------- -/

/-- One poll observation inside `waitForDataVolume`: either the
DataVolume GET failed, or it returned an unstructured object (modelled
by its `Object` field map). -/
inductive PollObs where
  | fetchErr (e : K8sErr)
  | dvObj (obj : List (String × UVal))

/-- Result of one iteration of the `wait.PollUntilContextTimeout`
condition function: `(true, nil)`, `(false, nil)`, or `(false, err)`. -/
inductive StepResult where
  | done
  | keepPolling
  | failed (e : Err)

/-- The `status` object of a polled DataVolume, when populated
(uploader.go line 540). -/
def dvStatus (obj : List (String × UVal)) : Option (List (String × UVal)) :=
  getObj obj "status"

/-- The phase string the poll body computes from a populated status:
`phase, _ := status["phase"].(string)` defaults to the empty string
(uploader.go line 545); `none` when the status object is absent. -/
def dvPhase (obj : List (String × UVal)) : Option String :=
  (dvStatus obj).map (fun st => (getStr st "phase").getD "")

/-- The condition list extracted on failure:
`conditions, _ := status["conditions"].([]interface)` defaults to nil
(uploader.go line 555). -/
def dvConditions (obj : List (String × UVal)) : List UVal :=
  ((dvStatus obj).bind (fun st => getArr st "conditions")).getD []

/-- Embeds the body of the poll closure of `waitForDataVolume`
(uploader.go lines 533-560): a GET error aborts the wait; an absent
status keeps polling; phase "Failed" aborts with the raw condition
list; the iteration is done exactly when the phase is "Succeeded", and
keeps polling otherwise. (The `lastPhase` logging state does not affect
the result and is not modelled.) -/
def dvPollStep (obs : PollObs) : StepResult :=
  match obs with
  | .fetchErr e => .failed (.wrap "getting DataVolume" (.k8s e))
  | .dvObj obj =>
    match dvStatus obj with
    | none => .keepPolling
    | some st =>
      let phase := (getStr st "phase").getD ""
      if phase = "Failed" then
        .failed (.dvFailed ((getArr st "conditions").getD []))
      else if phase = "Succeeded" then .done
      else .keepPolling

/-- Overall result of `waitForDataVolume` over a finite trace of poll
observations: the first terminal step decides; an exhausted trace means
the wait is still polling (in the deployed code this region is bounded
by the 60-minute timeout, which is outside the trace). -/
inductive WaitResult where
  | succeeded
  | failed (e : Err)
  | pending

/-- Embeds `waitForDataVolume` (uploader.go lines 529-561) as a fold of
the poll step over a finite observation trace. -/
def waitForDataVolume (trace : List PollObs) : WaitResult :=
  match trace with
  | [] => .pending
  | obs :: rest =>
    match dvPollStep obs with
    | .done => .succeeded
    | .failed e => .failed e
    | .keepPolling => waitForDataVolume rest

/- ---------------------------------------------------------------------
Embedding of `cleanup` and `uploadViaHTTPSource`
(uploader.go lines 275-309 and 564-580).
--------------------------------------------------------------------- -/

/-- The warning printed for one delete inside `cleanup`
(uploader.go lines 568-572 and 575-579): nothing on success or on a
NotFound error, otherwise the error is reported as a warning. -/
def cleanupWarnHalf (o : Option K8sErr) : List K8sErr :=
  match o with
  | some e => if e.isNotFound then [] else [e]
  | none => []

/-- Embeds `cleanup` (uploader.go lines 564-580): the service and then
the pod are deleted; each delete outcome (`none` = success) is
inspected and a warning is printed unless the error is NotFound; no
error is ever returned. The value is the list of warnings printed. -/
def cleanup (svcDelete podDelete : Option K8sErr) : List K8sErr :=
  cleanupWarnHalf svcDelete ++ cleanupWarnHalf podDelete

/-- Environment of step outcomes consumed by `uploadViaHTTPSource`:
the outcome of each sequential step (`none` = success), plus the
outcomes of the two deletes that `cleanup` performs when it runs. -/
structure HTTPEnv where
  createPodErr : Option Err
  createSvcErr : Option Err
  streamErr : Option Err
  createDVErr : Option Err
  waitErr : Option Err
  svcDelete : Option K8sErr
  podDelete : Option K8sErr

/-- Observable result of one `uploadViaHTTPSource` run: the returned
error, how many times `cleanup` executed before the return, and the
warnings cleanup printed. -/
structure HTTPRunResult where
  retErr : Option Err
  cleanupRuns : Nat
  cleanupWarnings : List K8sErr

/-- Embeds `uploadViaHTTPSource` (uploader.go lines 275-309): the steps
run in order, each failure wrapped and returned at once. The
`defer u.cleanup(ctx)` on line 281 is registered only after
`createServerPod` has returned nil, so a `createServerPod` failure
returns with no cleanup; every later exit, including success, runs
cleanup exactly once. Cleanup cannot contribute to the returned
error (it returns nothing in Go). -/
def uploadViaHTTPSource (env : HTTPEnv) : HTTPRunResult :=
  match env.createPodErr with
  | some e =>
    { retErr := some (.wrap "creating server pod" e)
      cleanupRuns := 0
      cleanupWarnings := [] }
  | none =>
    let warnings := cleanup env.svcDelete env.podDelete
    match env.createSvcErr with
    | some e =>
      { retErr := some (.wrap "creating server service" e)
        cleanupRuns := 1, cleanupWarnings := warnings }
    | none =>
      match env.streamErr with
      | some e =>
        { retErr := some (.wrap "streaming image" e)
          cleanupRuns := 1, cleanupWarnings := warnings }
      | none =>
        match env.createDVErr with
        | some e =>
          { retErr := some (.wrap "creating DataVolume" e)
            cleanupRuns := 1, cleanupWarnings := warnings }
        | none =>
          match env.waitErr with
          | some e =>
            { retErr := some (.wrap "waiting for DataVolume" e)
              cleanupRuns := 1, cleanupWarnings := warnings }
          | none =>
            { retErr := none, cleanupRuns := 1, cleanupWarnings := warnings }

/- ---------------------------------------------------------------------
Embedding of `GetPVCSize` (uploader.go lines 584-595).
--------------------------------------------------------------------- -/

/-- Gibibyte in bytes, the divisor `1024*1024*1024` of `GetPVCSize`. -/
def giB : Nat := 1024 * 1024 * 1024

/-- Embeds `GetPVCSize` (uploader.go lines 584-595): a stat error is
returned unchanged; otherwise
`sizeGi := int64(float64(size) * 1.2 / (1024*1024*1024)) + 1` and the
result is `fmt.Sprintf` of `sizeGi` followed by "Gi". The float64
expression is modelled by exact arithmetic: `size * 1.2 / 2^30`
truncated to an integer is `⌊6 * size / (5 * 2^30)⌋` (file sizes are
nonnegative, so int64 truncation is the floor), which natural-number
division computes. -/
def GetPVCSize (statResult : Except Err Nat) : Except Err String :=
  match statResult with
  | .error e => .error e
  | .ok size => .ok (toString (6 * size / (5 * giB) + 1) ++ "Gi")

/-- Capacity the specification text asks for: file size times 1.2
rounded up to a whole number of gibibytes. Written from the spec
sentence, for comparison with `GetPVCSize` above. -/
def specPVCSizeGi (size : Nat) : Nat :=
  (6 * size + (5 * giB - 1)) / (5 * giB)

/-- Navigation of a dotted path of object fields ending in a string
`role` field, used to state which spec paths `hasPrimaryRole`
inspects. -/
def roleAt (fields : List (String × UVal)) : List String → Option String
  | [] => getStr fields "role"
  | k :: rest => (getObj fields k).bind (fun o => roleAt o rest)

/- ---------------------------------------------------------------------
Helper lemmas.
--------------------------------------------------------------------- -/

/-- A permutation of a list leaves `List.any` unchanged. -/
theorem any_of_perm {α : Type} {l₁ l₂ : List α} (h : l₁.Perm l₂) (p : α → Bool) :
    l₁.any p = l₂.any p := by
  induction h with
  | nil => rfl
  | cons x _ ih => simp [List.any_cons, ih]
  | swap x y l =>
      simp only [List.any_cons]
      rw [← Bool.or_assoc, ← Bool.or_assoc, Bool.or_comm (p y) (p x)]
  | trans _ _ ih₁ ih₂ => exact ih₁.trans ih₂

/-- If some entry of the expression list fails to convert (either its
operator string is unrecognized or `newRequirement` rejects it), the
whole conversion fails. -/
theorem convertMatchExpressions_eq_none (es : List LabelSelectorRequirement)
    (e : LabelSelectorRequirement) (he : e ∈ es)
    (hfail : ∀ op, parseSelOp e.operator = some op →
      newRequirement e.key op e.values = none) :
    convertMatchExpressions es = none := by
  induction es with
  | nil => cases he
  | cons x xs ih =>
      rcases List.mem_cons.mp he with h | h
      · subst h
        simp only [convertMatchExpressions]
        cases hop : parseSelOp e.operator with
        | none => rfl
        | some op =>
            dsimp only
            rw [hfail op hop]
      · simp only [convertMatchExpressions]
        cases hop : parseSelOp x.operator with
        | none => rfl
        | some op =>
            dsimp only
            cases hr : newRequirement x.key op x.values with
            | none => rfl
            | some r =>
                dsimp only
                rw [ih h]

/-- The CUDN scanning loop computes an existential over the list. -/
theorem scanCUDNs_eq_any (items : List (List (String × UVal)))
    (ns : List (String × String)) :
    scanCUDNs items ns = items.any (fun item =>
      match getObj item "spec" with
      | some spec => hasPrimaryRole spec && selectorMatchesNamespace spec ns
      | none => false) := by
  induction items with
  | nil => rfl
  | cons item rest ih =>
      simp only [scanCUDNs, List.any_cons, ← ih]
      cases getObj item "spec" with
      | none => simp
      | some spec =>
          by_cases h : (hasPrimaryRole spec && selectorMatchesNamespace spec ns) = true
          · simp [h]
          · simp [h, Bool.eq_false_iff.mpr h]

/-- The UDN scanning loop computes an existential over the list. -/
theorem scanUDNs_eq_any (items : List (List (String × UVal))) :
    scanUDNs items = items.any (fun item =>
      match getObj item "spec" with
      | some spec => hasPrimaryRole spec
      | none => false) := by
  induction items with
  | nil => rfl
  | cons item rest ih =>
      simp only [scanUDNs, List.any_cons, ← ih]
      cases getObj item "spec" with
      | none => simp
      | some spec =>
          by_cases h : hasPrimaryRole spec = true
          · simp [h]
          · simp [h, Bool.eq_false_iff.mpr h]

/-- A prefix of keep-polling observations does not change the wait
outcome. -/
theorem waitForDataVolume_append (pre t : List PollObs)
    (h : ∀ o ∈ pre, dvPollStep o = .keepPolling) :
    waitForDataVolume (pre ++ t) = waitForDataVolume t := by
  induction pre with
  | nil => rfl
  | cons o rest ih =>
      have ho : dvPollStep o = .keepPolling := h o (List.mem_cons_self o rest)
      simp only [List.cons_append, waitForDataVolume, ho]
      exact ih (fun x hx => h x (List.mem_cons_of_mem o hx))

/-- The poll step reports done exactly on an object whose populated
status has phase "Succeeded". -/
theorem dvPollStep_eq_done (o : PollObs) :
    dvPollStep o = .done ↔ ∃ obj, o = PollObs.dvObj obj ∧ dvPhase obj = some "Succeeded" := by
  cases o with
  | fetchErr e => simp [dvPollStep]
  | dvObj obj =>
      cases hst : dvStatus obj with
      | none => simp [dvPollStep, dvPhase, hst]
      | some st =>
          by_cases hf : (getStr st "phase").getD "" = "Failed"
          · simp [dvPollStep, dvPhase, hst, hf]
          · by_cases hs : (getStr st "phase").getD "" = "Succeeded"
            · simp [dvPollStep, dvPhase, hst, hf, hs]
            · simp [dvPollStep, dvPhase, hst, hf, hs]

/-- The poll step on an object whose populated status has phase
"Failed" aborts with the raw condition list. -/
theorem dvPollStep_failed_phase (obj : List (String × UVal))
    (h : dvPhase obj = some "Failed") :
    dvPollStep (PollObs.dvObj obj) = .failed (.dvFailed (dvConditions obj)) := by
  simp only [dvPhase] at h
  rcases Option.map_eq_some'.mp h with ⟨st, hst, hph⟩
  simp [dvPollStep, dvConditions, hst, hph]

/-- The poll step on an object with a non-terminal phase (or an absent
status) keeps polling. -/
theorem dvPollStep_keepPolling (obj : List (String × UVal))
    (h : ∀ p, dvPhase obj = some p → p ≠ "Succeeded" ∧ p ≠ "Failed") :
    dvPollStep (PollObs.dvObj obj) = .keepPolling := by
  simp only [dvPollStep]
  cases hst : dvStatus obj with
  | none => rfl
  | some st =>
      have := h ((getStr st "phase").getD "") (by simp [dvPhase, hst])
      simp [this.1, this.2]

/-- The per-layer Primary check is path navigation to "Primary". -/
theorem layerHasPrimary_iff (fields : List (String × UVal)) (layer : String) :
    layerHasPrimary fields layer = true ↔ roleAt fields [layer] = some "Primary" := by
  simp only [layerHasPrimary, roleAt]
  cases h : getObj fields layer with
  | none => simp
  | some o =>
      dsimp only
      cases hr : getStr o "role" with
      | none => simp [roleAt, hr]
      | some role => simp [roleAt, hr, beq_iff_eq]

/-- Elements of one delete-outcome half of the cleanup warning list are
never NotFound errors. -/
theorem cleanupWarnHalf_not_notFound (o : Option K8sErr) :
    ∀ w ∈ cleanupWarnHalf o, w.isNotFound = false := by
  intro w hw
  match o with
  | none => cases hw
  | some e =>
      simp only [cleanupWarnHalf] at hw
      by_cases he : e.isNotFound = true
      · rw [if_pos he] at hw; cases hw
      · rw [if_neg he] at hw
        have hwe : w = e := List.mem_singleton.mp hw
        subst hwe
        cases hb : w.isNotFound
        · rfl
        · exact absurd hb he

/-- Warnings printed by `cleanup` are never NotFound errors. -/
theorem cleanup_warnings_not_notFound (s p : Option K8sErr) :
    ∀ w ∈ cleanup s p, w.isNotFound = false := by
  intro w hw
  simp only [cleanup, List.mem_append] at hw
  rcases hw with h | h
  · exact cleanupWarnHalf_not_notFound s w h
  · exact cleanupWarnHalf_not_notFound p w h

/-- An `Exists` or `DoesNotExist` requirement with a nonempty value
list always fails validation. -/
theorem newRequirement_existence_nonempty_values (key : String) (op : SelOp)
    (hop : op = .opExists ∨ op = .opDoesNotExist)
    (vals : List String) (hv : vals ≠ []) :
    newRequirement key op vals = none := by
  have hne : vals.isEmpty = false := by
    cases vals with
    | nil => exact absurd rfl hv
    | cons a l => rfl
  rcases hop with rfl | rfl <;> simp [newRequirement, hne]

/- ---------------------------------------------------------------------
Claim theorems.
--------------------------------------------------------------------- -/

/-- C2, counterexample: at a file of exactly 5 GiB (whose size times
1.2 is exactly 6 GiB), `GetPVCSize` answers "7Gi" while the claimed
round-up-to-the-exact-multiple behavior (`specPVCSizeGi`) answers 6, so
the claim fails as stated. (On this input the Go float64 computation is
also exact: 5368709120 times the double nearest 1.2 rounds to exactly
6442450944.0, which divided by 2^30 is exactly 6.0, truncated to 6.) -/
theorem GetPVCSize_exact_multiple_cex :
    GetPVCSize (.ok (5 * giB)) = .ok "7Gi"
    ∧ specPVCSizeGi (5 * giB) = 6
    ∧ ("7Gi" : String) ≠ "6Gi" := by
  refine ⟨rfl, rfl, by decide⟩

/-- C2 (amended): for every file whose size stat succeeds,
`GetPVCSize` returns "<N>Gi" where N is the unique integer with
(N - 1) * 2^30 ≤ size * 1.2 < N * 2^30, that is, floor(size * 1.2 /
2^30) + 1: one more than a true round-up whenever size * 1.2 is an
exact multiple of 2^30, and equal to the round-up otherwise. -/
theorem GetPVCSize_floor_plus_one :
    ∀ size : Nat, ∃ N : Nat,
      GetPVCSize (.ok size) = .ok (toString N ++ "Gi")
      ∧ 1 ≤ N
      ∧ 5 * giB * (N - 1) ≤ 6 * size
      ∧ 6 * size < 5 * giB * N := by
  intro size
  have hb : 0 < 5 * giB := by norm_num [giB]
  refine ⟨6 * size / (5 * giB) + 1, rfl, Nat.le_add_left 1 _, ?_, ?_⟩
  · rw [Nat.add_sub_cancel, Nat.mul_comm]
    exact Nat.div_mul_le_self (6 * size) (5 * giB)
  · calc 6 * size
        = 5 * giB * (6 * size / (5 * giB)) + 6 * size % (5 * giB) :=
          (Nat.div_add_mod (6 * size) (5 * giB)).symm
      _ < 5 * giB * (6 * size / (5 * giB)) + 5 * giB :=
          Nat.add_lt_add_left (Nat.mod_lt _ hb) _
      _ = 5 * giB * (6 * size / (5 * giB) + 1) := by ring

/-- C6: whenever the namespace label map lacks the key
"k8s.ovn.org/primary-user-defined-network", the detector returns
`false` with no error, whatever the CUDN and UDN list outcomes are (no
definition list is consulted). -/
theorem namespaceHasPrimaryUDN_no_label_false :
    ∀ (nsLabels : List (String × String))
      (c u : Except K8sErr (List (List (String × UVal)))),
      List.lookup udnLabelKey nsLabels = none →
      namespaceHasPrimaryUDN ⟨.ok nsLabels, c, u⟩ = .ok false := by
  intro nsLabels c u h
  simp [namespaceHasPrimaryUDN, h]

/-- C6, witness: a namespace without the marker label is classified
`false` even though both lists contain a Primary-role definition. -/
theorem namespaceHasPrimaryUDN_no_label_false_witness :
    namespaceHasPrimaryUDN
      ⟨.ok [("team", "blue")],
       .ok [[("spec", UVal.obj [("layer2", UVal.obj [("role", UVal.str "Primary")])])]],
       .ok [[("spec", UVal.obj [("layer2", UVal.obj [("role", UVal.str "Primary")])])]]⟩
      = .ok false :=
  namespaceHasPrimaryUDN_no_label_false _ _ _ (by decide)

/-- C7: with the namespace fetch outcome fixed and both definition
lists successfully fetched, permuting either list never changes the
detector result (first-match short-circuiting is order-insensitive). -/
theorem namespaceHasPrimaryUDN_perm_invariant :
    ∀ (ns : Except K8sErr (List (String × String)))
      (c₁ c₂ u₁ u₂ : List (List (String × UVal))),
      c₁.Perm c₂ → u₁.Perm u₂ →
      namespaceHasPrimaryUDN ⟨ns, .ok c₁, .ok u₁⟩ =
        namespaceHasPrimaryUDN ⟨ns, .ok c₂, .ok u₂⟩ := by
  intro ns c₁ c₂ u₁ u₂ hc hu
  have hcs : ∀ nsl, scanCUDNs c₁ nsl = scanCUDNs c₂ nsl := by
    intro nsl
    rw [scanCUDNs_eq_any, scanCUDNs_eq_any, any_of_perm hc]
  have hus : scanUDNs u₁ = scanUDNs u₂ := by
    rw [scanUDNs_eq_any, scanUDNs_eq_any, any_of_perm hu]
  cases ns with
  | error e => rfl
  | ok nsLabels =>
      simp only [namespaceHasPrimaryUDN, hcs nsLabels, checkNamespaceScopedUDN, hus]

/-- C7, witness: swapping two CUDN items and two UDN items leaves a
concrete detection run unchanged. -/
theorem namespaceHasPrimaryUDN_perm_invariant_witness :
    namespaceHasPrimaryUDN
      ⟨.ok [(udnLabelKey, "")],
       .ok [[("a", UVal.null)], [("b", UVal.null)]],
       .ok [[("c", UVal.null)], [("d", UVal.null)]]⟩ =
    namespaceHasPrimaryUDN
      ⟨.ok [(udnLabelKey, "")],
       .ok [[("b", UVal.null)], [("a", UVal.null)]],
       .ok [[("d", UVal.null)], [("c", UVal.null)]]⟩ :=
  namespaceHasPrimaryUDN_perm_invariant _ _ _ _ _
    (List.Perm.swap _ _ _) (List.Perm.swap _ _ _)

/-- C8: a spec map is classified Primary exactly when one of the four
paths network.layer2.role, network.layer3.role, layer2.role,
layer3.role holds the exact string "Primary" (any non-object on the
path or non-string role yields no match); and an item whose `spec`
field is not an object is skipped by both scanning loops. -/
theorem hasPrimaryRole_iff_paths :
    (∀ spec : List (String × UVal),
      hasPrimaryRole spec = true ↔
        (roleAt spec ["network", "layer2"] = some "Primary"
         ∨ roleAt spec ["network", "layer3"] = some "Primary"
         ∨ roleAt spec ["layer2"] = some "Primary"
         ∨ roleAt spec ["layer3"] = some "Primary"))
    ∧ (∀ (item : List (String × UVal)) rest ns,
        getObj item "spec" = none → scanCUDNs (item :: rest) ns = scanCUDNs rest ns)
    ∧ (∀ (item : List (String × UVal)) rest,
        getObj item "spec" = none → scanUDNs (item :: rest) = scanUDNs rest) := by
  refine ⟨?_, ?_, ?_⟩
  · intro spec
    cases hn : getObj spec "network" with
    | none => simp [hasPrimaryRole, roleAt, hn, layerHasPrimary_iff]
    | some network =>
        simp [hasPrimaryRole, roleAt, hn, layerHasPrimary_iff, or_assoc]
  · intro item rest ns h
    simp only [scanCUDNs, h]
  · intro item rest h
    simp only [scanUDNs, h]

/-- C8, witness: an item without an object-typed `spec` field is
skipped by both scans; a lowercase "primary" role does not classify. -/
theorem hasPrimaryRole_iff_paths_witness :
    scanCUDNs [[("kind", UVal.str "ClusterUserDefinedNetwork")]] [] = scanCUDNs [] []
    ∧ scanUDNs [[("spec", UVal.str "oops")]] = scanUDNs [] :=
  ⟨hasPrimaryRole_iff_paths.2.1 _ [] [] rfl,
   hasPrimaryRole_iff_paths.2.2 _ [] rfl⟩

/-- C1, counterexample: when the very first step (origin-pod
creation/readiness) fails, `uploadViaHTTPSource` returns its error
without ever running cleanup — the deferred cleanup is registered only
after `createServerPod` succeeds — so "cleanup executes exactly once on
every invocation, including a first-step failure" is false. -/
theorem uploadViaHTTPSource_first_step_failure_cex :
    (uploadViaHTTPSource
      { createPodErr := some (.msg "pod readiness timeout")
        createSvcErr := none, streamErr := none, createDVErr := none
        waitErr := none, svcDelete := none, podDelete := none }).cleanupRuns ≠ 1
    ∧ (uploadViaHTTPSource
      { createPodErr := some (.msg "pod readiness timeout")
        createSvcErr := none, streamErr := none, createDVErr := none
        waitErr := none, svcDelete := none, podDelete := none }).cleanupRuns = 0 := by
  exact ⟨by decide, rfl⟩

/-- C1 (amended): cleanup executes exactly once on every exit of
`uploadViaHTTPSource` that follows a successful `createServerPod`
(including the success path), and zero times when `createServerPod`
itself fails; the returned error never depends on the cleanup delete
outcomes, and cleanup surfaces no NotFound warning. -/
theorem uploadViaHTTPSource_cleanup_policy :
    ∀ env : HTTPEnv,
      (env.createPodErr = none → (uploadViaHTTPSource env).cleanupRuns = 1)
      ∧ (∀ e, env.createPodErr = some e → (uploadViaHTTPSource env).cleanupRuns = 0)
      ∧ (∀ s p, (uploadViaHTTPSource { env with svcDelete := s, podDelete := p }).retErr
          = (uploadViaHTTPSource env).retErr)
      ∧ (∀ w ∈ (uploadViaHTTPSource env).cleanupWarnings, w.isNotFound = false) := by
  intro env
  obtain ⟨cp, cs, st, cd, wt, sd, pd⟩ := env
  refine ⟨?_, ?_, ?_, ?_⟩
  · intro h
    have hcp : cp = none := h
    subst hcp
    cases cs <;> cases st <;> cases cd <;> cases wt <;> rfl
  · intro e h
    have hcp : cp = some e := h
    subst hcp
    rfl
  · intro s p
    cases cp <;> cases cs <;> cases st <;> cases cd <;> cases wt <;> rfl
  · intro w hw
    cases cp with
    | some e => exact absurd hw (List.not_mem_nil w)
    | none =>
        cases cs <;> cases st <;> cases cd <;> cases wt <;>
          exact cleanup_warnings_not_notFound sd pd w hw

/-- C1 (amended), witness: a run whose pod creation succeeds cleans up
exactly once (even when a later step fails); a run whose pod creation
fails cleans up zero times; NotFound delete outcomes do not change the
returned error; a non-NotFound delete outcome only yields a warning. -/
theorem uploadViaHTTPSource_cleanup_policy_witness :
    (uploadViaHTTPSource
      { createPodErr := none, createSvcErr := none
        streamErr := some (.msg "connection reset"), createDVErr := none
        waitErr := none, svcDelete := none, podDelete := none }).cleanupRuns = 1
    ∧ (uploadViaHTTPSource
      { createPodErr := some (.msg "pod readiness timeout"), createSvcErr := none
        streamErr := none, createDVErr := none
        waitErr := none, svcDelete := none, podDelete := none }).cleanupRuns = 0
    ∧ (uploadViaHTTPSource
      { ({ createPodErr := none, createSvcErr := none, streamErr := none
           createDVErr := none, waitErr := none, svcDelete := none
           podDelete := none } : HTTPEnv) with
          svcDelete := some .notFound, podDelete := some .notFound }).retErr
      = (uploadViaHTTPSource
      { createPodErr := none, createSvcErr := none, streamErr := none
        createDVErr := none, waitErr := none, svcDelete := none
        podDelete := none }).retErr
    ∧ (K8sErr.other "forbidden").isNotFound = false :=
  ⟨(uploadViaHTTPSource_cleanup_policy _).1 rfl,
   (uploadViaHTTPSource_cleanup_policy _).2.1 _ rfl,
   (uploadViaHTTPSource_cleanup_policy _).2.2.1 (some .notFound) (some .notFound),
   (uploadViaHTTPSource_cleanup_policy
      { createPodErr := none, createSvcErr := none, streamErr := none
        createDVErr := none, waitErr := none
        svcDelete := some (K8sErr.other "forbidden"), podDelete := none }).2.2.2
     (K8sErr.other "forbidden") (by decide)⟩

/-- C4: `streamImageToPod` returns no error exactly when the open,
stat, executor construction and exec stream all succeed and the tar
writer completed; in particular a header-write or copy failure of the
writer is returned (wrapped) even when the exec session itself
succeeded. -/
theorem streamImageToPod_requires_both_sides :
    ∀ env : StreamEnv,
      (streamImageToPod env = none ↔
        (env.openErr = none ∧ env.statErr = none ∧ env.executorErr = none
         ∧ env.streamErr = none ∧ ∃ n, env.writerOutcome = .completed n))
      ∧ (∀ e, env.openErr = none → env.statErr = none → env.executorErr = none →
          env.streamErr = none → env.writerOutcome = .headerFailed e →
          streamImageToPod env = some (.wrap "writing tar header" e))
      ∧ (∀ e, env.openErr = none → env.statErr = none → env.executorErr = none →
          env.streamErr = none → env.writerOutcome = .copyFailed e →
          streamImageToPod env = some (.wrap "copying file to tar" e)) := by
  intro env
  obtain ⟨o, s, w, x, st⟩ := env
  refine ⟨⟨?_, ?_⟩, ?_, ?_⟩
  · intro h
    cases o with
    | some e => exact Option.noConfusion h
    | none =>
      cases s with
      | some e => exact Option.noConfusion h
      | none =>
        cases x with
        | some e => exact Option.noConfusion h
        | none =>
          cases st with
          | some e => exact Option.noConfusion h
          | none =>
            cases w with
            | headerFailed e => exact Option.noConfusion h
            | copyFailed e => exact Option.noConfusion h
            | completed n => exact ⟨rfl, rfl, rfl, rfl, n, rfl⟩
  · rintro ⟨h1, h2, h3, h4, n, h5⟩
    have ho : o = none := h1
    have hs : s = none := h2
    have hx : x = none := h3
    have hst : st = none := h4
    have hw : w = .completed n := h5
    subst ho hs hx hst hw
    rfl
  · intro e h1 h2 h3 h4 h5
    have ho : o = none := h1
    have hs : s = none := h2
    have hx : x = none := h3
    have hst : st = none := h4
    have hw : w = .headerFailed e := h5
    subst ho hs hx hst hw
    rfl
  · intro e h1 h2 h3 h4 h5
    have ho : o = none := h1
    have hs : s = none := h2
    have hx : x = none := h3
    have hst : st = none := h4
    have hw : w = .copyFailed e := h5
    subst ho hs hx hst hw
    rfl

/-- C4, witness: a copy failure in the tar writer is returned although
the exec session reported success. -/
theorem streamImageToPod_requires_both_sides_witness :
    streamImageToPod
      { openErr := none, statErr := none
        writerOutcome := .copyFailed (.msg "read error")
        executorErr := none, streamErr := none }
      = some (.wrap "copying file to tar" (.msg "read error")) :=
  (streamImageToPod_requires_both_sides _).2.2 _ rfl rfl rfl rfl rfl

/-- C9: when the exec stream itself fails, `streamImageToPod` returns
that (wrapped) stream error, whatever the tar writer did — the writer
outcome is never consulted on this path. -/
theorem streamImageToPod_exec_error_priority :
    ∀ (env : StreamEnv) (e : Err),
      env.openErr = none → env.statErr = none → env.executorErr = none →
      env.streamErr = some e →
      streamImageToPod env = some (.wrap "streaming to pod" e)
      ∧ ∀ w, streamImageToPod { env with writerOutcome := w }
          = some (.wrap "streaming to pod" e) := by
  intro env e h1 h2 h3 h4
  obtain ⟨o, s, w0, x, st⟩ := env
  have ho : o = none := h1
  have hs : s = none := h2
  have hx : x = none := h3
  have hst : st = some e := h4
  subst ho hs hx hst
  exact ⟨rfl, fun w => rfl⟩

/-- C9, witness: with both a stream error and a writer failure present,
the stream error is the one returned. -/
theorem streamImageToPod_exec_error_priority_witness :
    streamImageToPod
      { openErr := none, statErr := none
        writerOutcome := .headerFailed (.msg "disk full")
        executorErr := none, streamErr := some (.msg "connection reset") }
      = some (.wrap "streaming to pod" (.msg "connection reset")) :=
  (streamImageToPod_exec_error_priority _ _ rfl rfl rfl rfl).1

/-- C10: any DataVolume fetch error on a poll — after any number of
non-terminal polls — aborts the whole wait at once with that (wrapped)
error; later observations are never consulted. -/
theorem waitForDataVolume_fetch_error_aborts :
    ∀ (pre : List PollObs) (e : K8sErr) (post : List PollObs),
      (∀ o ∈ pre, dvPollStep o = .keepPolling) →
      waitForDataVolume (pre ++ PollObs.fetchErr e :: post)
        = .failed (.wrap "getting DataVolume" (.k8s e)) := by
  intro pre e post h
  rw [waitForDataVolume_append pre _ h]
  rfl

/-- C10, witness: a transient fetch failure aborts the wait even though
the next poll would have observed phase "Succeeded". -/
theorem waitForDataVolume_fetch_error_aborts_witness :
    waitForDataVolume (PollObs.fetchErr (K8sErr.other "transient") ::
        [PollObs.dvObj [("status", UVal.obj [("phase", UVal.str "Succeeded")])]])
      = .failed (.wrap "getting DataVolume" (.k8s (K8sErr.other "transient"))) :=
  waitForDataVolume_fetch_error_aborts [] _ _
    (fun o ho => absurd ho (List.not_mem_nil o))

/-- C5: in `waitForDataVolume`, an absent status keeps polling; the
wait reports success exactly when some poll, after only non-terminal
polls, observes an object whose status phase is "Succeeded"; a poll
observing phase "Failed" stops at once (whatever observations would
have followed) with an error carrying the raw condition list; and any
other phase value keeps polling. -/
theorem waitForDataVolume_phase_semantics :
    (∀ (obj : List (String × UVal)) (rest : List PollObs),
        dvStatus obj = none →
        waitForDataVolume (PollObs.dvObj obj :: rest) = waitForDataVolume rest)
    ∧ (∀ trace : List PollObs,
        waitForDataVolume trace = .succeeded ↔
          ∃ pre obj post, trace = pre ++ PollObs.dvObj obj :: post
            ∧ (∀ o ∈ pre, dvPollStep o = .keepPolling)
            ∧ dvPhase obj = some "Succeeded")
    ∧ (∀ (pre : List PollObs) (obj : List (String × UVal)) (post : List PollObs),
        (∀ o ∈ pre, dvPollStep o = .keepPolling) →
        dvPhase obj = some "Failed" →
        waitForDataVolume (pre ++ PollObs.dvObj obj :: post)
          = .failed (.dvFailed (dvConditions obj)))
    ∧ (∀ (obj : List (String × UVal)) (p : String) (rest : List PollObs),
        dvPhase obj = some p → p ≠ "Succeeded" → p ≠ "Failed" →
        waitForDataVolume (PollObs.dvObj obj :: rest) = waitForDataVolume rest) := by
  refine ⟨?_, ?_, ?_, ?_⟩
  · intro obj rest h
    have hstep : dvPollStep (PollObs.dvObj obj) = .keepPolling := by
      simp [dvPollStep, h]
    simp only [waitForDataVolume, hstep]
  · intro trace
    constructor
    · intro h
      induction trace with
      | nil => exact WaitResult.noConfusion h
      | cons o rest ih =>
          simp only [waitForDataVolume] at h
          cases hstep : dvPollStep o with
          | done =>
              rcases (dvPollStep_eq_done o).mp hstep with ⟨obj, rfl, hph⟩
              exact ⟨[], obj, rest, rfl, by simp, hph⟩
          | failed e =>
              rw [hstep] at h
              exact WaitResult.noConfusion h
          | keepPolling =>
              rw [hstep] at h
              rcases ih h with ⟨pre, obj, post, rfl, hpre, hph⟩
              refine ⟨o :: pre, obj, post, rfl, ?_, hph⟩
              intro o2 ho2
              rcases List.mem_cons.mp ho2 with rfl | hmem
              · exact hstep
              · exact hpre o2 hmem
    · rintro ⟨pre, obj, post, rfl, hpre, hph⟩
      rw [waitForDataVolume_append pre _ hpre]
      have hdone : dvPollStep (PollObs.dvObj obj) = .done :=
        (dvPollStep_eq_done _).mpr ⟨obj, rfl, hph⟩
      simp only [waitForDataVolume, hdone]
  · intro pre obj post hpre hph
    rw [waitForDataVolume_append pre _ hpre]
    have hstep := dvPollStep_failed_phase obj hph
    simp only [waitForDataVolume, hstep]
  · intro obj p rest hph hs hf
    have hstep : dvPollStep (PollObs.dvObj obj) = .keepPolling := by
      refine dvPollStep_keepPolling obj ?_
      intro q hq
      rw [hph] at hq
      obtain rfl := Option.some.inj hq
      exact ⟨hs, hf⟩
    simp only [waitForDataVolume, hstep]

/-- C5, witness: the four behaviors at concrete traces — an absent
status polls on; a Succeeded observation after a non-terminal poll
succeeds; a Failed observation aborts with its condition list although
a later observation exists; an intermediate phase polls on. -/
theorem waitForDataVolume_phase_semantics_witness :
    waitForDataVolume [PollObs.dvObj [("kind", UVal.str "DataVolume")]]
      = waitForDataVolume []
    ∧ waitForDataVolume
        [PollObs.dvObj [("status", UVal.obj [("phase", UVal.str "ImportScheduled")])],
         PollObs.dvObj [("status", UVal.obj [("phase", UVal.str "Succeeded")])]]
      = .succeeded
    ∧ waitForDataVolume
        [PollObs.dvObj [("status", UVal.obj [("phase", UVal.str "Failed"),
            ("conditions", UVal.arr [UVal.str "ImportFailed"])])],
         PollObs.dvObj [("status", UVal.obj [("phase", UVal.str "Succeeded")])]]
      = .failed (.dvFailed (dvConditions [("status", UVal.obj [("phase", UVal.str "Failed"),
            ("conditions", UVal.arr [UVal.str "ImportFailed"])])]))
    ∧ waitForDataVolume
        [PollObs.dvObj [("status", UVal.obj [("phase", UVal.str "ImportInProgress")])]]
      = waitForDataVolume [] :=
  ⟨waitForDataVolume_phase_semantics.1 _ [] rfl,
   (waitForDataVolume_phase_semantics.2.1 _).mpr
     ⟨[PollObs.dvObj [("status", UVal.obj [("phase", UVal.str "ImportScheduled")])]],
      [("status", UVal.obj [("phase", UVal.str "Succeeded")])], [], rfl,
      by intro o ho; rcases List.mem_singleton.mp ho with rfl; rfl, rfl⟩,
   waitForDataVolume_phase_semantics.2.2.1 [] _ _
     (fun o ho => absurd ho (List.not_mem_nil o)) rfl,
   waitForDataVolume_phase_semantics.2.2.2 _ "ImportInProgress" [] rfl
     (by decide) (by decide)⟩

/-- C3, counterexample: an `Exists` requirement carrying a non-empty
value list on a key present in the label map does not match — selector
construction rejects the value list (apimachinery requires it to be
empty for Exists/DoesNotExist) and `selectorMatchesNamespace` maps that
error to a non-match — contradicting "the value list is ignored and the
selector is evaluated". -/
theorem selectorMatchesNamespace_exists_values_cex :
    selectorMatchesNamespace
      [("namespaceSelector", UVal.obj [("matchExpressions", UVal.arr
        [UVal.obj [("key", UVal.str "a"), ("operator", UVal.str "Exists"),
                   ("values", UVal.arr [UVal.str "x"])]])])]
      [("a", "b")] = false := by
  decide

/-- C3 (amended): at match time `Exists`/`DoesNotExist` requirements
indeed test only key presence/absence and ignore their stored value
list; but a requirement of either operator with a non-empty value list
never passes construction: `newRequirement` rejects it, any selector
containing such an expression converts to an error, and
`selectorMatchesNamespace` turns that error into a non-match. -/
theorem selector_exists_requirement_semantics :
    (∀ (key : String) (vals : List String) (ls : List (String × String)),
        requirementMatches ⟨key, .opExists, vals⟩ ls = (List.lookup key ls).isSome)
    ∧ (∀ (key : String) (vals : List String) (ls : List (String × String)),
        requirementMatches ⟨key, .opDoesNotExist, vals⟩ ls = (List.lookup key ls).isNone)
    ∧ (∀ (key : String) (vals : List String), vals ≠ [] →
        newRequirement key .opExists vals = none)
    ∧ (∀ (key : String) (vals : List String), vals ≠ [] →
        newRequirement key .opDoesNotExist vals = none)
    ∧ (∀ (ps : LabelSelector) (r : LabelSelectorRequirement),
        r ∈ ps.matchExpressions →
        (r.operator = "Exists" ∨ r.operator = "DoesNotExist") →
        r.values ≠ [] →
        labelSelectorAsSelector ps = none)
    ∧ (∀ (spec : List (String × UVal)) (nsLabels : List (String × String))
          (nsSel : List (String × UVal)),
        getObj spec "namespaceSelector" = some nsSel →
        labelSelectorAsSelector (parseNamespaceSelector nsSel) = none →
        selectorMatchesNamespace spec nsLabels = false) := by
  refine ⟨?_, ?_, ?_, ?_, ?_, ?_⟩
  · intro key vals ls
    rfl
  · intro key vals ls
    rfl
  · intro key vals hv
    exact newRequirement_existence_nonempty_values key _ (Or.inl rfl) vals hv
  · intro key vals hv
    exact newRequirement_existence_nonempty_values key _ (Or.inr rfl) vals hv
  · intro ps r hr hop hv
    have hfail : ∀ op, parseSelOp r.operator = some op →
        newRequirement r.key op r.values = none := by
      intro op hop2
      rcases hop with h | h
      · rw [h] at hop2
        have hofe : some SelOp.opExists = some op := hop2
        obtain rfl := Option.some.inj hofe
        exact newRequirement_existence_nonempty_values r.key _ (Or.inl rfl) r.values hv
      · rw [h] at hop2
        have hofe : some SelOp.opDoesNotExist = some op := hop2
        obtain rfl := Option.some.inj hofe
        exact newRequirement_existence_nonempty_values r.key _ (Or.inr rfl) r.values hv
    have hlen : ps.matchLabels.length + ps.matchExpressions.length ≠ 0 := by
      have hpos : 0 < ps.matchExpressions.length :=
        List.length_pos.mpr (List.ne_nil_of_mem hr)
      omega
    have hcond : (ps.matchLabels.length + ps.matchExpressions.length == 0) = false := by
      simpa using hlen
    simp only [labelSelectorAsSelector, hcond, Bool.false_eq_true, if_false]
    cases hml : convertMatchLabels ps.matchLabels with
    | none => rfl
    | some rs1 =>
        dsimp only
        rw [convertMatchExpressions_eq_none ps.matchExpressions r hr hfail]
  · intro spec nsLabels nsSel hsel hnone
    simp only [selectorMatchesNamespace, hsel, hnone]

/-- C3 (amended), witness: construction rejects both operators with a
non-empty value list; a concrete selector containing such an expression
converts to an error; and a concrete spec carrying it does not match a
namespace whose labels would satisfy the presence test. -/
theorem selector_exists_requirement_semantics_witness :
    newRequirement "a" SelOp.opExists ["x"] = none
    ∧ newRequirement "a" SelOp.opDoesNotExist ["x"] = none
    ∧ labelSelectorAsSelector
        { matchLabels := []
          matchExpressions := [⟨"a", "DoesNotExist", ["x"]⟩] } = none
    ∧ selectorMatchesNamespace
        [("namespaceSelector", UVal.obj [("matchExpressions", UVal.arr
          [UVal.obj [("key", UVal.str "team"), ("operator", UVal.str "Exists"),
                     ("values", UVal.arr [UVal.str "blue"])]])])]
        [("team", "blue")] = false :=
  ⟨selector_exists_requirement_semantics.2.2.1 "a" ["x"] (by decide),
   selector_exists_requirement_semantics.2.2.2.1 "a" ["x"] (by decide),
   selector_exists_requirement_semantics.2.2.2.2.1 _ ⟨"a", "DoesNotExist", ["x"]⟩
     (List.mem_singleton.mpr rfl) (Or.inr rfl) (by decide),
   selector_exists_requirement_semantics.2.2.2.2.2 _ _ _ rfl
     (selector_exists_requirement_semantics.2.2.2.2.1 _
       ⟨"team", "Exists", ["blue"]⟩ (List.mem_singleton.mpr rfl)
       (Or.inl rfl) (by decide))⟩

end GoldenImage
